import Mathlib

/-!
Verification of the Vulkan pipeline-statistics example
(`examples/pipelinestatistics/pipelinestatistics.cpp`).

The example is straight-line glue code over the Vulkan API: it creates a
query pool for pipeline-statistics counters, records one command buffer per
frame whose draw loop is bracketed by `vkCmdBeginQuery`/`vkCmdEndQuery`,
reads the results back, and exposes a few rasterization-state toggles in a
UI overlay that force pipeline recreation.

The embedding below models:
  * the Vulkan enum/bit constants the example uses (values from
    `vulkan_core.h`);
  * the example's mutable member state (`ExampleState`);
  * `getEnabledFeatures`, `createQueryPool`, `createPipelines` and
    `OnUpdateUIOverlay` as state transformers;
  * `render` as the list of API calls / commands it issues, in program
    order (an `Event` trace), since the claims about it are ordering
    claims.

Floating-point note: the only float arithmetic in the file is the grid
position `(x - gridSize/2.0f) * 2.5f` with `0 ≤ x < gridSize ≤ 10`.  All
intermediate values are multiples of `1/4` with magnitude below `2^6`, so
every step is exact in IEEE single precision and the rational model below
computes exactly the values the C++ code computes.
-/

namespace PipelineStatistics

/-! ## Vulkan API constants (values from `vulkan_core.h`) -/

def VK_QUERY_TYPE_PIPELINE_STATISTICS : Nat := 1

def VK_QUERY_PIPELINE_STATISTIC_INPUT_ASSEMBLY_VERTICES_BIT : Nat := 0x0001
def VK_QUERY_PIPELINE_STATISTIC_INPUT_ASSEMBLY_PRIMITIVES_BIT : Nat := 0x0002
def VK_QUERY_PIPELINE_STATISTIC_VERTEX_SHADER_INVOCATIONS_BIT : Nat := 0x0004
def VK_QUERY_PIPELINE_STATISTIC_GEOMETRY_SHADER_INVOCATIONS_BIT : Nat := 0x0008
def VK_QUERY_PIPELINE_STATISTIC_GEOMETRY_SHADER_PRIMITIVES_BIT : Nat := 0x0010
def VK_QUERY_PIPELINE_STATISTIC_CLIPPING_INVOCATIONS_BIT : Nat := 0x0020
def VK_QUERY_PIPELINE_STATISTIC_CLIPPING_PRIMITIVES_BIT : Nat := 0x0040
def VK_QUERY_PIPELINE_STATISTIC_FRAGMENT_SHADER_INVOCATIONS_BIT : Nat := 0x0080
def VK_QUERY_PIPELINE_STATISTIC_TESSELLATION_CONTROL_SHADER_PATCHES_BIT : Nat := 0x0100
def VK_QUERY_PIPELINE_STATISTIC_TESSELLATION_EVALUATION_SHADER_INVOCATIONS_BIT : Nat := 0x0200

def VK_QUERY_RESULT_64_BIT : Nat := 1

/-- `VK_CULL_MODE_*`: the example stores these in an `int32_t`. -/
def VK_CULL_MODE_NONE : Int := 0
def VK_CULL_MODE_FRONT_BIT : Int := 1
def VK_CULL_MODE_BACK_BIT : Int := 2
def VK_CULL_MODE_FRONT_AND_BACK : Int := 3

def VK_POLYGON_MODE_FILL : Nat := 0
def VK_POLYGON_MODE_LINE : Nat := 1

def VK_PRIMITIVE_TOPOLOGY_TRIANGLE_LIST : Nat := 3
def VK_PRIMITIVE_TOPOLOGY_PATCH_LIST : Nat := 10

def VK_BLEND_FACTOR_ZERO : Nat := 0
def VK_BLEND_FACTOR_SRC_ALPHA : Nat := 6
def VK_BLEND_FACTOR_ONE_MINUS_SRC_ALPHA : Nat := 7
def VK_BLEND_OP_ADD : Nat := 0

def VK_COLOR_COMPONENT_R_BIT : Nat := 0x1
def VK_COLOR_COMPONENT_G_BIT : Nat := 0x2
def VK_COLOR_COMPONENT_B_BIT : Nat := 0x4
def VK_COLOR_COMPONENT_A_BIT : Nat := 0x8

def VK_SHADER_STAGE_VERTEX_BIT : Nat := 0x01
def VK_SHADER_STAGE_TESSELLATION_CONTROL_BIT : Nat := 0x02
def VK_SHADER_STAGE_TESSELLATION_EVALUATION_BIT : Nat := 0x04
def VK_SHADER_STAGE_FRAGMENT_BIT : Nat := 0x10

def VK_ERROR_FEATURE_NOT_PRESENT : Int := -11

/-! ## Device features and example state -/

/-- The fields of `VkPhysicalDeviceFeatures` the example reads
(`deviceFeatures` in the base class). -/
structure VkPhysicalDeviceFeatures where
  pipelineStatisticsQuery : Bool
  fillModeNonSolid : Bool
  tessellationShader : Bool
deriving DecidableEq, Repr

/-- The configuration of the query pool created by `createQueryPool`
(the fields of `VkQueryPoolCreateInfo` the example sets). -/
structure VkQueryPoolCreateInfo where
  queryType : Nat
  pipelineStatistics : Nat
  queryCount : Nat
deriving DecidableEq, Repr

/-- Color-blend attachment state of the created pipeline
(fields of `VkPipelineColorBlendAttachmentState`). -/
structure VkPipelineColorBlendAttachmentState where
  blendEnable : Bool
  colorWriteMask : Nat
  srcColorBlendFactor : Nat
  dstColorBlendFactor : Nat
  colorBlendOp : Nat
  srcAlphaBlendFactor : Nat
  dstAlphaBlendFactor : Nat
  alphaBlendOp : Nat
deriving DecidableEq, Repr

/-- `vks::initializers::pipelineColorBlendAttachmentState(mask, enable)`:
the remaining fields are zero-initialized (`VK_BLEND_FACTOR_ZERO`,
`VK_BLEND_OP_ADD` are the zero values). -/
def pipelineColorBlendAttachmentState (colorWriteMask : Nat) (blendEnable : Bool) :
    VkPipelineColorBlendAttachmentState :=
  { blendEnable := blendEnable
    colorWriteMask := colorWriteMask
    srcColorBlendFactor := VK_BLEND_FACTOR_ZERO
    dstColorBlendFactor := VK_BLEND_FACTOR_ZERO
    colorBlendOp := VK_BLEND_OP_ADD
    srcAlphaBlendFactor := VK_BLEND_FACTOR_ZERO
    dstAlphaBlendFactor := VK_BLEND_FACTOR_ZERO
    alphaBlendOp := VK_BLEND_OP_ADD }

/-- The state baked into the pipeline object `createPipelines` creates:
the create-info fields that depend on the example's toggles. -/
structure VkGraphicsPipeline where
  topology : Nat
  polygonMode : Nat
  cullMode : Int
  rasterizerDiscardEnable : Bool
  blendAttachment : VkPipelineColorBlendAttachmentState
  depthTestEnable : Bool
  depthWriteEnable : Bool
  hasTessellationState : Bool
  patchControlPoints : Nat
  shaderStages : List Nat
deriving DecidableEq, Repr

/-- The mutable member state of the `VulkanExample` class that the claims
are about.  `queryPool` is `none` before `createQueryPool` runs
(`VkQueryPool` handle not yet created) and afterwards records the created
pool's configuration; `pipeline` is `none` while the handle is
`VK_NULL_HANDLE`. -/
structure ExampleState where
  objectIndex : Int
  gridSize : Int
  cullMode : Int
  blending : Bool
  discard : Bool
  wireframe : Bool
  tessellation : Bool
  pipelineStats : List Nat
  pipelineStatNames : List String
  queryPool : Option VkQueryPoolCreateInfo
  pipeline : Option VkGraphicsPipeline
deriving DecidableEq, Repr

/-- Member initializers of `VulkanExample` (lines 17-49 of the source). -/
def initialState : ExampleState :=
  { objectIndex := 3
    gridSize := 3
    cullMode := VK_CULL_MODE_BACK_BIT
    blending := false
    discard := false
    wireframe := false
    tessellation := false
    pipelineStats := []
    pipelineStatNames := []
    queryPool := none
    pipeline := none }

/-! ## getEnabledFeatures -/

/-- Outcome of `getEnabledFeatures`: either the program terminates via
`vks::tools::exitFatal(message, errorCode)` or it proceeds with the
features it enabled.  All other operations of the example are total
functions in this development: no other operation has a fatal outcome. -/
inductive GetEnabledFeaturesResult where
  | fatal (message : String) (errorCode : Int)
  | ok (enabledFeatures : VkPhysicalDeviceFeatures)
deriving DecidableEq, Repr

/-- Lines 77-92: pipeline statistics support is required (fatal exit
otherwise); `fillModeNonSolid` and `tessellationShader` are enabled only
when available (`enabledFeatures` starts zero-initialized). -/
def getEnabledFeatures (deviceFeatures : VkPhysicalDeviceFeatures) :
    GetEnabledFeaturesResult :=
  if deviceFeatures.pipelineStatisticsQuery then
    .ok { pipelineStatisticsQuery := true
          fillModeNonSolid := deviceFeatures.fillModeNonSolid
          tessellationShader := deviceFeatures.tessellationShader }
  else
    .fatal "Selected GPU does not support pipeline statistics!" VK_ERROR_FEATURE_NOT_PRESENT

/-! ## createQueryPool -/

/-- `std::vector::resize(n)` on a `std::vector<uint64_t>`: keeps the first
`n` existing elements and value-initializes (zeroes) the rest. -/
def vectorResize (v : List Nat) (n : Nat) : List Nat :=
  v.take n ++ List.replicate (n - v.length) 0

/-- Lines 95-130: sets `pipelineStatNames` to the six base counter names
plus the two tessellation counters when the device supports tessellation,
resizes `pipelineStats` to match, and creates the query pool with the
matching statistics bits and `queryCount`. -/
def createQueryPool (deviceFeatures : VkPhysicalDeviceFeatures) (s : ExampleState) :
    ExampleState :=
  let pipelineStatNames :=
    ["Input assembly vertex count        ",
     "Input assembly primitives count    ",
     "Vertex shader invocations          ",
     "Clipping stage primitives processed",
     "Clipping stage primitives output    ",
     "Fragment shader invocations        "]
  let pipelineStatNames :=
    if deviceFeatures.tessellationShader then
      pipelineStatNames ++
        ["Tess. control shader patches       ",
         "Tess. eval. shader invocations     "]
    else pipelineStatNames
  let pipelineStats := vectorResize s.pipelineStats pipelineStatNames.length
  let queryPoolInfo : VkQueryPoolCreateInfo :=
    { queryType := VK_QUERY_TYPE_PIPELINE_STATISTICS
      pipelineStatistics :=
        (VK_QUERY_PIPELINE_STATISTIC_INPUT_ASSEMBLY_VERTICES_BIT |||
         VK_QUERY_PIPELINE_STATISTIC_INPUT_ASSEMBLY_PRIMITIVES_BIT |||
         VK_QUERY_PIPELINE_STATISTIC_VERTEX_SHADER_INVOCATIONS_BIT |||
         VK_QUERY_PIPELINE_STATISTIC_CLIPPING_INVOCATIONS_BIT |||
         VK_QUERY_PIPELINE_STATISTIC_CLIPPING_PRIMITIVES_BIT |||
         VK_QUERY_PIPELINE_STATISTIC_FRAGMENT_SHADER_INVOCATIONS_BIT) |||
        (if deviceFeatures.tessellationShader then
          VK_QUERY_PIPELINE_STATISTIC_TESSELLATION_CONTROL_SHADER_PATCHES_BIT |||
          VK_QUERY_PIPELINE_STATISTIC_TESSELLATION_EVALUATION_SHADER_INVOCATIONS_BIT
         else 0)
      queryCount := if deviceFeatures.tessellationShader then 8 else 6 }
  { s with
      pipelineStatNames := pipelineStatNames
      pipelineStats := pipelineStats
      queryPool := some queryPoolInfo }

/-! ## createPipelines -/

/-- Lines 170-244: builds the graphics pipeline from the current toggle
state.  Baseline state: triangle-list topology, fill polygon mode, the
current `cullMode`, blending disabled (write mask `0xf`), depth test and
depth write enabled, vertex + fragment stages.  The `blending`, `discard`,
`wireframe` and `tessellation` toggles then override the corresponding
fields exactly as the `if` blocks in the source do. -/
def createPipelines (s : ExampleState) : VkGraphicsPipeline :=
  let inputAssemblyTopology := VK_PRIMITIVE_TOPOLOGY_TRIANGLE_LIST
  let polygonMode := VK_POLYGON_MODE_FILL
  let blendAttachmentState := pipelineColorBlendAttachmentState 0xf false
  let depthWriteEnable := true
  let rasterizerDiscardEnable := false
  -- if (blending) { ... }
  let blendAttachmentState :=
    if s.blending then
      { blendEnable := true
        colorWriteMask :=
          VK_COLOR_COMPONENT_R_BIT ||| VK_COLOR_COMPONENT_G_BIT |||
          VK_COLOR_COMPONENT_B_BIT ||| VK_COLOR_COMPONENT_A_BIT
        srcColorBlendFactor := VK_BLEND_FACTOR_SRC_ALPHA
        dstColorBlendFactor := VK_BLEND_FACTOR_ONE_MINUS_SRC_ALPHA
        colorBlendOp := VK_BLEND_OP_ADD
        srcAlphaBlendFactor := VK_BLEND_FACTOR_ONE_MINUS_SRC_ALPHA
        dstAlphaBlendFactor := VK_BLEND_FACTOR_ZERO
        alphaBlendOp := VK_BLEND_OP_ADD }
    else blendAttachmentState
  let depthWriteEnable := if s.blending then false else depthWriteEnable
  -- if (discard) { ... }
  let rasterizerDiscardEnable := if s.discard then true else rasterizerDiscardEnable
  -- if (wireframe) { ... }
  let polygonMode := if s.wireframe then VK_POLYGON_MODE_LINE else polygonMode
  -- shader stages: vertex + fragment, plus tess control/eval when tessellation is on
  let shaderStages :=
    if s.tessellation then
      [VK_SHADER_STAGE_VERTEX_BIT, VK_SHADER_STAGE_FRAGMENT_BIT,
       VK_SHADER_STAGE_TESSELLATION_CONTROL_BIT, VK_SHADER_STAGE_TESSELLATION_EVALUATION_BIT]
    else
      [VK_SHADER_STAGE_VERTEX_BIT, VK_SHADER_STAGE_FRAGMENT_BIT]
  -- if (tessellation) { topology = PATCH_LIST; pTessellationState = &tessellationState; }
  let inputAssemblyTopology :=
    if s.tessellation then VK_PRIMITIVE_TOPOLOGY_PATCH_LIST else inputAssemblyTopology
  { topology := inputAssemblyTopology
    polygonMode := polygonMode
    cullMode := s.cullMode
    rasterizerDiscardEnable := rasterizerDiscardEnable
    blendAttachment := blendAttachmentState
    depthTestEnable := true
    depthWriteEnable := depthWriteEnable
    hasTessellationState := s.tessellation
    patchControlPoints := 3
    shaderStages := shaderStages }

/-! ## OnUpdateUIOverlay -/

/-- Modelled from the spec: the base framework's immediate-mode debug-UI
overlay slider (`overlay->sliderInt(caption, &value, lo, hi)`) keeps the
edited value inside `[lo, hi]`. -/
def sliderInt (value lo hi : Int) : Int :=
  max lo (min hi value)

/-- Modelled from the spec: one update of the framework's immediate-mode
debug-UI overlay, seen from `OnUpdateUIOverlay`.  Each widget call returns
whether the user changed it during this update; a header returns whether
its section is open; a changed `comboBox` stores the newly selected index,
a changed `sliderInt` stores the new (range-clamped) value, and a clicked
`checkBox` toggles its `bool`.  The fields below record those user
interactions for one update. -/
structure OverlayInput where
  settingsOpen : Bool
  statsOpen : Bool
  objectChanged : Bool
  newObjectIndex : Int
  gridChanged : Bool
  newGridSize : Int
  cullChanged : Bool
  newCullMode : Int
  blendingClicked : Bool
  wireframeClicked : Bool
  tessellationClicked : Bool
  discardClicked : Bool
deriving DecidableEq, Repr

/-- Lines 330-368: the settings widgets run only when the "Settings"
header is open; the cull-mode combo and the blending / wireframe /
tessellation / discard checkboxes set `recreatePipelines` when changed;
the wireframe and tessellation checkboxes exist only when the
corresponding device feature is present; the object-type combo and the
grid-size slider update their values without setting `recreatePipelines`;
finally `createPipelines()` runs iff `recreatePipelines` was set.
Returns the new state paired with the `recreatePipelines` flag. -/
def OnUpdateUIOverlay (deviceFeatures : VkPhysicalDeviceFeatures)
    (inp : OverlayInput) (s : ExampleState) : ExampleState × Bool :=
  let updated : ExampleState × Bool :=
    if inp.settingsOpen then
      let s := { s with
        objectIndex := if inp.objectChanged then inp.newObjectIndex else s.objectIndex }
      let s := { s with
        gridSize := if inp.gridChanged then sliderInt inp.newGridSize 1 10 else s.gridSize }
      let s := { s with
        cullMode := if inp.cullChanged then inp.newCullMode else s.cullMode }
      let recreatePipelines := inp.cullChanged
      let s := { s with
        blending := if inp.blendingClicked then !s.blending else s.blending }
      let recreatePipelines := recreatePipelines || inp.blendingClicked
      let s :=
        if deviceFeatures.fillModeNonSolid then
          { s with wireframe := if inp.wireframeClicked then !s.wireframe else s.wireframe }
        else s
      let recreatePipelines :=
        recreatePipelines || (deviceFeatures.fillModeNonSolid && inp.wireframeClicked)
      let s :=
        if deviceFeatures.tessellationShader then
          { s with
            tessellation := if inp.tessellationClicked then !s.tessellation else s.tessellation }
        else s
      let recreatePipelines :=
        recreatePipelines || (deviceFeatures.tessellationShader && inp.tessellationClicked)
      let s := { s with
        discard := if inp.discardClicked then !s.discard else s.discard }
      let recreatePipelines := recreatePipelines || inp.discardClicked
      (s, recreatePipelines)
    else (s, false)
  -- the statistics section (lines 357-364) only displays text
  if updated.2 then
    ({ updated.1 with pipeline := some (createPipelines updated.1) }, true)
  else
    (updated.1, false)

/-- Lines 357-363: the captions printed by the "Pipeline statistics"
section of the overlay, one per entry of `pipelineStats` (the loop runs
only when `pipelineStats` is non-empty). -/
def overlayStatCaptions (s : ExampleState) : List String :=
  if s.pipelineStats.isEmpty then []
  else (List.range s.pipelineStats.length).map
    (fun i => s.pipelineStatNames.getD i "" ++ ": %d")

/-! ## render, as a trace of API calls -/

/-- One API call / recorded command issued by `render()`, in program
order.  Host-side calls (`vkGetQueryPoolResults`, the uniform-buffer
memcpy, `submitFrame`) and recorded commands (`vkCmd*`) appear in the same
trace because the claims compare their relative positions. -/
inductive Event where
  | vkGetQueryPoolResults (firstQuery queryCount dataSize stride flags : Nat)
  | updateUniformBuffers
  | vkBeginCommandBuffer
  | vkCmdResetQueryPool (firstQuery queryCount : Nat)
  | vkCmdBeginRenderPass
  | vkCmdSetViewport
  | vkCmdSetScissor
  | vkCmdBeginQuery (query : Nat)
  | vkCmdBindDescriptorSets
  | vkCmdBindPipeline
  | bindBuffers (objectIndex : Int)
  | vkCmdPushConstants (pos : Rat × Rat × Rat)
  | draw (objectIndex : Int)
  | vkCmdEndQuery (query : Nat)
  | overlayDraw
  | vkCmdEndRenderPass
  | vkEndCommandBuffer
  | submitFrame
deriving DecidableEq, Repr

/-- Grid coordinate `float(x - (gridSize / 2.0f)) * 2.5f` (line 314),
computed exactly over the rationals (see the float note above). -/
def gridCoordinate (gridSize x : Int) : Rat :=
  ((x : Rat) - (gridSize : Rat) / 2) * (5 / 2)

/-- The push-constant position for grid cell `(x, y)` (line 314):
`glm::vec3(float(x - gridSize/2.0f) * 2.5f, 0.0f, float(y - gridSize/2.0f) * 2.5f)`. -/
def objectPosition (gridSize x y : Int) : Rat × Rat × Rat :=
  (gridCoordinate gridSize x, 0, gridCoordinate gridSize y)

/-- The commands recorded by the draw loop (lines 312-318): for each cell,
a push constant with the cell's position followed by a draw of the
selected model. -/
def drawCommands (gridSize objectIndex : Int) : List Event :=
  (List.range gridSize.toNat).flatMap fun y =>
    (List.range gridSize.toNat).flatMap fun x =>
      [Event.vkCmdPushConstants (objectPosition gridSize x y), Event.draw objectIndex]

/-- Lines 263-328: the trace of API calls made by one `render()` call,
in program order.  `paused` and `cameraUpdated` are the base-class flags
read on line 282. -/
def render (paused cameraUpdated : Bool) (s : ExampleState) : List Event :=
  [Event.vkGetQueryPoolResults 0 1 (s.pipelineStats.length * 8) 8 VK_QUERY_RESULT_64_BIT]
  ++ (if !paused || cameraUpdated then [Event.updateUniformBuffers] else [])
  ++ [Event.vkBeginCommandBuffer,
      Event.vkCmdResetQueryPool 0 s.pipelineStats.length,
      Event.vkCmdBeginRenderPass,
      Event.vkCmdSetViewport,
      Event.vkCmdSetScissor,
      Event.vkCmdBeginQuery 0,
      Event.vkCmdBindDescriptorSets,
      Event.vkCmdBindPipeline,
      Event.vkCmdBindPipeline,
      Event.vkCmdBindDescriptorSets,
      Event.bindBuffers s.objectIndex]
  ++ drawCommands s.gridSize s.objectIndex
  ++ [Event.vkCmdEndQuery 0,
      Event.overlayDraw,
      Event.vkCmdEndRenderPass,
      Event.vkEndCommandBuffer,
      Event.submitFrame]

/-- The trace of frame number `k`, with every event tagged by its frame
number; `st k` is the example state when frame `k` is rendered. -/
def frameEvents (paused cameraUpdated : Bool) (st : Nat → ExampleState) (k : Nat) :
    List (Nat × Event) :=
  (render paused cameraUpdated (st k)).map (fun e => (k, e))

/-- The concatenated traces of frames `0, 1, ..., n-1`, in submission
order. -/
def runFrames (paused cameraUpdated : Bool) (st : Nat → ExampleState) (n : Nat) :
    List (Nat × Event) :=
  (List.range n).flatMap (frameEvents paused cameraUpdated st)

/-- Recognizes a model draw command. -/
def Event.isDraw : Event → Bool
  | .draw _ => true
  | _ => false

/-- Recognizes the query and render-pass bracketing commands. -/
def Event.isQueryOrRenderPassCmd : Event → Bool
  | .vkCmdBeginQuery _ => true
  | .vkCmdEndQuery _ => true
  | .vkCmdBeginRenderPass => true
  | .vkCmdEndRenderPass => true
  | _ => false

/-! ## Reachable states

The example mutates its member state through `createQueryPool` (from
`prepare`), `createPipelines` (from `prepare` and from the overlay),
`OnUpdateUIOverlay`, and the query read-back in `render`, which overwrites
the values in `pipelineStats` (through `pipelineStats.data()`) but never
its length.  `Reachable` closes the initial state under these operations;
it over-approximates the program's actual call order (any interleaving,
any number of repetitions), so an invariant over `Reachable` holds in
every state the program can actually reach. -/

inductive Reachable (deviceFeatures : VkPhysicalDeviceFeatures) : ExampleState → Prop where
  | init : Reachable deviceFeatures initialState
  | queryPoolStep {s : ExampleState} :
      Reachable deviceFeatures s →
      Reachable deviceFeatures (createQueryPool deviceFeatures s)
  | pipelinesStep {s : ExampleState} :
      Reachable deviceFeatures s →
      Reachable deviceFeatures { s with pipeline := some (createPipelines s) }
  | overlayStep {s : ExampleState} (inp : OverlayInput) :
      Reachable deviceFeatures s →
      Reachable deviceFeatures (OnUpdateUIOverlay deviceFeatures inp s).1
  | readbackStep {s : ExampleState} (vals : List Nat) :
      vals.length = s.pipelineStats.length →
      Reachable deviceFeatures s →
      Reachable deviceFeatures { s with pipelineStats := vals }

/-- Characterization of the overlay update (proved below): the widgets
edit the state as `widgetUpdate` describes and the pipeline is rebuilt
exactly when `recreateFlag` holds. -/
def widgetUpdate (deviceFeatures : VkPhysicalDeviceFeatures) (inp : OverlayInput)
    (s : ExampleState) : ExampleState :=
  if inp.settingsOpen then
    { s with
        objectIndex := if inp.objectChanged then inp.newObjectIndex else s.objectIndex
        gridSize := if inp.gridChanged then sliderInt inp.newGridSize 1 10 else s.gridSize
        cullMode := if inp.cullChanged then inp.newCullMode else s.cullMode
        blending := if inp.blendingClicked then !s.blending else s.blending
        wireframe :=
          if deviceFeatures.fillModeNonSolid && inp.wireframeClicked then !s.wireframe
          else s.wireframe
        tessellation :=
          if deviceFeatures.tessellationShader && inp.tessellationClicked then !s.tessellation
          else s.tessellation
        discard := if inp.discardClicked then !s.discard else s.discard }
  else s

/-- The condition under which one overlay update sets `recreatePipelines`. -/
def recreateFlag (deviceFeatures : VkPhysicalDeviceFeatures) (inp : OverlayInput) : Bool :=
  inp.settingsOpen &&
    (inp.cullChanged || inp.blendingClicked ||
     (deviceFeatures.fillModeNonSolid && inp.wireframeClicked) ||
     (deviceFeatures.tessellationShader && inp.tessellationClicked) ||
     inp.discardClicked)

/-- The grid-cell positions traversed by the draw loop, row by row. -/
def gridCells (gridSize : Int) : List (Rat × Rat × Rat) :=
  (List.range gridSize.toNat).flatMap fun (y : Nat) =>
    (List.range gridSize.toNat).map fun (x : Nat) => objectPosition gridSize x y

/-! ## Claimed properties

One `Prop` per claim, so that each claim's theorem and its witness share
one statement. -/

/-- `createQueryPool` requests exactly the six base statistics bits and
`queryCount = 6` without tessellation support, the two extra tessellation
bits and `queryCount = 8` with it, and sizes `pipelineStats` and
`pipelineStatNames` to that same count. -/
def QueryPoolSizedToCounters (deviceFeatures : VkPhysicalDeviceFeatures)
    (s : ExampleState) : Prop :=
  (createQueryPool deviceFeatures s).queryPool = some
    { queryType := VK_QUERY_TYPE_PIPELINE_STATISTICS
      pipelineStatistics :=
        (VK_QUERY_PIPELINE_STATISTIC_INPUT_ASSEMBLY_VERTICES_BIT |||
         VK_QUERY_PIPELINE_STATISTIC_INPUT_ASSEMBLY_PRIMITIVES_BIT |||
         VK_QUERY_PIPELINE_STATISTIC_VERTEX_SHADER_INVOCATIONS_BIT |||
         VK_QUERY_PIPELINE_STATISTIC_CLIPPING_INVOCATIONS_BIT |||
         VK_QUERY_PIPELINE_STATISTIC_CLIPPING_PRIMITIVES_BIT |||
         VK_QUERY_PIPELINE_STATISTIC_FRAGMENT_SHADER_INVOCATIONS_BIT) |||
        (if deviceFeatures.tessellationShader then
          VK_QUERY_PIPELINE_STATISTIC_TESSELLATION_CONTROL_SHADER_PATCHES_BIT |||
          VK_QUERY_PIPELINE_STATISTIC_TESSELLATION_EVALUATION_SHADER_INVOCATIONS_BIT
         else 0)
      queryCount := if deviceFeatures.tessellationShader then 8 else 6 } ∧
  (createQueryPool deviceFeatures s).pipelineStats.length =
    (if deviceFeatures.tessellationShader then 8 else 6) ∧
  (createQueryPool deviceFeatures s).pipelineStatNames.length =
    (if deviceFeatures.tessellationShader then 8 else 6)

/-- The trace of one `render()` call splits as: a prefix with no draw,
then `vkCmdBeginQuery` on query 0, then the descriptor/pipeline binds,
then the draw loop's commands, then `vkCmdEndQuery` on query 0, then a
suffix with no draw that holds the UI overlay draw. -/
def QueryBracketsDrawLoop (paused cameraUpdated : Bool) (s : ExampleState) : Prop :=
  ∃ pre post,
    render paused cameraUpdated s =
      pre ++ [Event.vkCmdBeginQuery 0]
          ++ [Event.vkCmdBindDescriptorSets, Event.vkCmdBindPipeline,
              Event.vkCmdBindPipeline, Event.vkCmdBindDescriptorSets,
              Event.bindBuffers s.objectIndex]
          ++ drawCommands s.gridSize s.objectIndex
          ++ [Event.vkCmdEndQuery 0] ++ post ∧
    (∀ e ∈ pre, e.isDraw = false) ∧
    (∀ e ∈ post, e.isDraw = false) ∧
    Event.overlayDraw ∈ post

/-- In the trace of one `render()` call the begin/end query commands lie
strictly inside the render pass: the unique occurrences appear in the
order `vkCmdBeginRenderPass`, `vkCmdBeginQuery`, `vkCmdEndQuery`,
`vkCmdEndRenderPass`. -/
def QueryInsideRenderPass (paused cameraUpdated : Bool) (s : ExampleState) : Prop :=
  ∃ pre mid1 mid2 mid3 post,
    render paused cameraUpdated s =
      pre ++ [Event.vkCmdBeginRenderPass] ++ mid1 ++ [Event.vkCmdBeginQuery 0]
          ++ mid2 ++ [Event.vkCmdEndQuery 0] ++ mid3 ++ [Event.vkCmdEndRenderPass] ++ post ∧
    (∀ e ∈ pre, e.isQueryOrRenderPassCmd = false) ∧
    (∀ e ∈ mid1, e.isQueryOrRenderPassCmd = false) ∧
    (∀ e ∈ mid2, e.isQueryOrRenderPassCmd = false) ∧
    (∀ e ∈ mid3, e.isQueryOrRenderPassCmd = false) ∧
    (∀ e ∈ post, e.isQueryOrRenderPassCmd = false)

/-- Over a run of `n` frames: frame `k+1`'s trace follows frame `k`'s,
each frame's trace ends with its submission and starts with the
`vkGetQueryPoolResults` read (so the read of frame `k+1` happens after
the submission of frame `k`, whose command buffer recorded the query it
reads, and before frame `k+1`'s own submission), and every read in the
run reads one query (query 0) into exactly
`pipelineStats.size() * sizeof(uint64_t)` bytes of 64-bit results with
stride `sizeof(uint64_t)`. -/
def ReadbackAfterSubmission (paused cameraUpdated : Bool) (st : Nat → ExampleState)
    (n k : Nat) : Prop :=
  ∃ pre post,
    runFrames paused cameraUpdated st n =
      pre ++ frameEvents paused cameraUpdated st k
          ++ frameEvents paused cameraUpdated st (k + 1) ++ post ∧
    (∃ front, frameEvents paused cameraUpdated st k = front ++ [(k, Event.submitFrame)]) ∧
    (∃ tail, frameEvents paused cameraUpdated st (k + 1) =
      (k + 1, Event.vkGetQueryPoolResults 0 1 ((st (k + 1)).pipelineStats.length * 8) 8
        VK_QUERY_RESULT_64_BIT) :: tail) ∧
    (∃ front, frameEvents paused cameraUpdated st (k + 1) =
      front ++ [(k + 1, Event.submitFrame)]) ∧
    (k, Event.vkCmdBeginQuery 0) ∈ frameEvents paused cameraUpdated st k ∧
    (k, Event.vkCmdEndQuery 0) ∈ frameEvents paused cameraUpdated st k ∧
    (∀ (j fq qc ds str fl : Nat),
      (j, Event.vkGetQueryPoolResults fq qc ds str fl) ∈ runFrames paused cameraUpdated st n →
      fq = 0 ∧ qc = 1 ∧ ds = (st j).pipelineStats.length * 8 ∧ str = 8 ∧
        fl = VK_QUERY_RESULT_64_BIT)

/-- One overlay update sets `recreatePipelines` exactly under
`recreateFlag` (the five rasterization-state controls, with wireframe and
tessellation gated on their device features; the object combo and grid
slider are absent from it), and the pipeline object is rebuilt iff that
flag is set. -/
def RecreatePipelinesIff (deviceFeatures : VkPhysicalDeviceFeatures)
    (inp : OverlayInput) (s : ExampleState) : Prop :=
  (OnUpdateUIOverlay deviceFeatures inp s).2 = recreateFlag deviceFeatures inp ∧
  ((OnUpdateUIOverlay deviceFeatures inp s).2 = true →
    (OnUpdateUIOverlay deviceFeatures inp s).1.pipeline =
      some (createPipelines (widgetUpdate deviceFeatures inp s))) ∧
  ((OnUpdateUIOverlay deviceFeatures inp s).2 = false →
    (OnUpdateUIOverlay deviceFeatures inp s).1.pipeline = s.pipeline)

/-- `getEnabledFeatures` exits fatally iff pipeline-statistics queries are
unsupported; every fatal exit carries that one message and
`VK_ERROR_FEATURE_NOT_PRESENT`; otherwise the optional features are
passed through (enabled iff supported) and the program proceeds. -/
def FeatureCheckFatalIff (deviceFeatures : VkPhysicalDeviceFeatures) : Prop :=
  (getEnabledFeatures deviceFeatures =
      GetEnabledFeaturesResult.fatal "Selected GPU does not support pipeline statistics!"
        VK_ERROR_FEATURE_NOT_PRESENT
    ↔ deviceFeatures.pipelineStatisticsQuery = false) ∧
  (∀ m e, getEnabledFeatures deviceFeatures = GetEnabledFeaturesResult.fatal m e →
    m = "Selected GPU does not support pipeline statistics!" ∧
    e = VK_ERROR_FEATURE_NOT_PRESENT ∧
    deviceFeatures.pipelineStatisticsQuery = false) ∧
  (deviceFeatures.pipelineStatisticsQuery = true →
    getEnabledFeatures deviceFeatures = GetEnabledFeaturesResult.ok
      { pipelineStatisticsQuery := true
        fillModeNonSolid := deviceFeatures.fillModeNonSolid
        tessellationShader := deviceFeatures.tessellationShader })

/-- `render` records exactly `gridSize * gridSize` draws (between 1 and
100, as `gridSize` stays in `[1, 10]`), all of the selected model, each
draw paired with a push constant carrying its grid cell's position; the
cells are spaced `2.5` units apart, and the grid's extent is centered at
`-1.25` (not `0`) on both axes: the first and last coordinates sum to
`-2.5`. -/
def RendersModelGrid (paused cameraUpdated : Bool)
    (deviceFeatures : VkPhysicalDeviceFeatures) (s : ExampleState) : Prop :=
  1 ≤ s.gridSize ∧ s.gridSize ≤ 10 ∧
  (render paused cameraUpdated s).countP Event.isDraw = s.gridSize.toNat ^ 2 ∧
  1 ≤ s.gridSize.toNat ^ 2 ∧ s.gridSize.toNat ^ 2 ≤ 100 ∧
  (∀ e ∈ render paused cameraUpdated s, e.isDraw = true → e = Event.draw s.objectIndex) ∧
  drawCommands s.gridSize s.objectIndex =
    (gridCells s.gridSize).flatMap
      (fun q => [Event.vkCmdPushConstants q, Event.draw s.objectIndex]) ∧
  (gridCells s.gridSize).length = s.gridSize.toNat ^ 2 ∧
  (∀ x : Int, gridCoordinate s.gridSize (x + 1) - gridCoordinate s.gridSize x = 5 / 2) ∧
  gridCoordinate s.gridSize 0 + gridCoordinate s.gridSize (s.gridSize - 1) = -5 / 2

/-- From `createQueryPool` on, `pipelineStats` and `pipelineStatNames`
have the same length (8 with tessellation support, else 6), equal to the
pool's `queryCount`; every overlay index into `pipelineStatNames` below
`pipelineStats.size()` is in bounds; `render`'s query-pool reset count
and read-back byte count equal the counter count; and the overlay prints
one caption per counter. -/
def StatsNamesInvariant (deviceFeatures : VkPhysicalDeviceFeatures)
    (s : ExampleState) : Prop :=
  s.pipelineStats.length = s.pipelineStatNames.length ∧
  (∀ info, s.queryPool = some info →
    s.pipelineStats.length = (if deviceFeatures.tessellationShader then 8 else 6) ∧
    info.queryCount = s.pipelineStats.length) ∧
  (∀ i, i < s.pipelineStats.length → i < s.pipelineStatNames.length) ∧
  (∀ p c, Event.vkCmdResetQueryPool 0 s.pipelineStatNames.length ∈ render p c s) ∧
  (∀ p c, (render p c s).head? = some (Event.vkGetQueryPoolResults 0 1
    (s.pipelineStatNames.length * 8) 8 VK_QUERY_RESULT_64_BIT)) ∧
  (overlayStatCaptions s).length = s.pipelineStats.length

/-- In every reachable state `wireframe` implies `fillModeNonSolid` and
`tessellation` implies `tessellationShader`, so without the feature the
created pipeline keeps fill polygon mode, triangle-list topology, the
two-stage shader set and no tessellation state. -/
def FeatureGatedToggles (deviceFeatures : VkPhysicalDeviceFeatures)
    (s : ExampleState) : Prop :=
  (s.wireframe = true → deviceFeatures.fillModeNonSolid = true) ∧
  (s.tessellation = true → deviceFeatures.tessellationShader = true) ∧
  (deviceFeatures.fillModeNonSolid = false →
    (createPipelines s).polygonMode = VK_POLYGON_MODE_FILL) ∧
  (deviceFeatures.tessellationShader = false →
    (createPipelines s).topology = VK_PRIMITIVE_TOPOLOGY_TRIANGLE_LIST ∧
    (createPipelines s).shaderStages =
      [VK_SHADER_STAGE_VERTEX_BIT, VK_SHADER_STAGE_FRAGMENT_BIT] ∧
    (createPipelines s).hasTessellationState = false)

/-- With `blending` on, the pipeline gets src-alpha / one-minus-src-alpha
color blending and depth writes off; with `blending` off, blending stays
disabled and depth writes on. -/
def BlendingImpliesNoDepthWrite (s : ExampleState) : Prop :=
  (createPipelines s).blendAttachment =
    (if s.blending then
      { blendEnable := true
        colorWriteMask := 0xf
        srcColorBlendFactor := VK_BLEND_FACTOR_SRC_ALPHA
        dstColorBlendFactor := VK_BLEND_FACTOR_ONE_MINUS_SRC_ALPHA
        colorBlendOp := VK_BLEND_OP_ADD
        srcAlphaBlendFactor := VK_BLEND_FACTOR_ONE_MINUS_SRC_ALPHA
        dstAlphaBlendFactor := VK_BLEND_FACTOR_ZERO
        alphaBlendOp := VK_BLEND_OP_ADD }
     else pipelineColorBlendAttachmentState 0xf false) ∧
  (createPipelines s).depthWriteEnable = !s.blending

/-! ## Helper lemmas -/

theorem vectorResize_length (v : List Nat) (n : Nat) : (vectorResize v n).length = n := by
  simp [vectorResize]
  omega

theorem OnUpdateUIOverlay_eq (deviceFeatures : VkPhysicalDeviceFeatures)
    (inp : OverlayInput) (s : ExampleState) :
    OnUpdateUIOverlay deviceFeatures inp s =
      (if recreateFlag deviceFeatures inp then
        ({ widgetUpdate deviceFeatures inp s with
             pipeline := some (createPipelines (widgetUpdate deviceFeatures inp s)) }, true)
       else (widgetUpdate deviceFeatures inp s, false)) := by
  cases hso : inp.settingsOpen <;>
    cases hf : deviceFeatures.fillModeNonSolid <;>
      cases ht : deviceFeatures.tessellationShader <;>
        simp [OnUpdateUIOverlay, widgetUpdate, recreateFlag, hso, hf, ht]

theorem overlay_preserves_stats (deviceFeatures : VkPhysicalDeviceFeatures)
    (inp : OverlayInput) (s : ExampleState) :
    (OnUpdateUIOverlay deviceFeatures inp s).1.pipelineStats = s.pipelineStats ∧
    (OnUpdateUIOverlay deviceFeatures inp s).1.pipelineStatNames = s.pipelineStatNames ∧
    (OnUpdateUIOverlay deviceFeatures inp s).1.queryPool = s.queryPool := by
  rw [OnUpdateUIOverlay_eq]
  cases h : recreateFlag deviceFeatures inp <;> simp [widgetUpdate] <;>
    cases hso : inp.settingsOpen <;> simp

theorem mem_drawCommands {gridSize objectIndex : Int} {e : Event}
    (h : e ∈ drawCommands gridSize objectIndex) :
    (∃ q, e = Event.vkCmdPushConstants q) ∨ e = Event.draw objectIndex := by
  simp only [drawCommands, List.mem_flatMap, List.mem_cons, List.mem_singleton] at h
  obtain ⟨y, -, x, -, h | h | h⟩ := h
  · exact Or.inl ⟨_, h⟩
  · exact Or.inr h
  · cases h

theorem countP_flatMap_list {α β : Type} (l : List α) (f : α → List β) (p : β → Bool) :
    (l.flatMap f).countP p = (l.map fun a => (f a).countP p).sum := by
  induction l with
  | nil => simp
  | cons a l ih => simp [List.countP_append, ih]

theorem drawCommands_countP_draw (gridSize objectIndex : Int) :
    (drawCommands gridSize objectIndex).countP Event.isDraw = gridSize.toNat ^ 2 := by
  simp only [drawCommands]
  rw [countP_flatMap_list]
  have inner : ∀ y : Nat,
      ((List.range gridSize.toNat).flatMap fun x =>
        [Event.vkCmdPushConstants (objectPosition gridSize x y),
         Event.draw objectIndex]).countP Event.isDraw = gridSize.toNat := by
    intro y
    rw [countP_flatMap_list]
    simp [List.countP_cons, Event.isDraw, List.map_const]
  simp only [inner]
  simp [List.map_const, List.sum_replicate, sq]

theorem flatMap_map_eq {α β γ : Type} (l : List α) (f : α → β) (g : β → List γ) :
    (l.map f).flatMap g = l.flatMap (fun x => g (f x)) := by
  induction l <;> simp [*]

theorem gridPositions_eq (gridSize objectIndex : Int) :
    drawCommands gridSize objectIndex =
      (gridCells gridSize).flatMap
        fun q => [Event.vkCmdPushConstants q, Event.draw objectIndex] := by
  simp only [drawCommands, gridCells]
  conv_rhs => rw [List.flatMap_assoc]
  congr 1
  funext y
  rw [flatMap_map_eq]

/-! ## Reachability invariants -/

theorem reachable_gridSize_bounds {deviceFeatures : VkPhysicalDeviceFeatures}
    {s : ExampleState} (h : Reachable deviceFeatures s) :
    1 ≤ s.gridSize ∧ s.gridSize ≤ 10 := by
  induction h with
  | init => exact ⟨by norm_num [initialState], by norm_num [initialState]⟩
  | queryPoolStep _ ih => simpa [createQueryPool] using ih
  | pipelinesStep _ ih => simpa using ih
  | @overlayStep t inp _ ih =>
      rw [OnUpdateUIOverlay_eq]
      have hw : 1 ≤ (widgetUpdate deviceFeatures inp t).gridSize ∧
          (widgetUpdate deviceFeatures inp t).gridSize ≤ 10 := by
        simp only [widgetUpdate]
        split
        · refine ⟨?_, ?_⟩ <;> simp only [ExampleState.gridSize] <;> split
          · exact le_max_left _ _
          · exact ih.1
          · exact max_le (by norm_num) (min_le_left _ _)
          · exact ih.2
        · exact ih
      cases recreateFlag deviceFeatures inp <;> simpa using hw
  | readbackStep vals _ _ ih => simpa using ih

theorem reachable_feature_flags {deviceFeatures : VkPhysicalDeviceFeatures}
    {s : ExampleState} (h : Reachable deviceFeatures s) :
    (s.wireframe = true → deviceFeatures.fillModeNonSolid = true) ∧
    (s.tessellation = true → deviceFeatures.tessellationShader = true) := by
  induction h with
  | init => simp [initialState]
  | queryPoolStep _ ih => simpa [createQueryPool] using ih
  | pipelinesStep _ ih => simpa using ih
  | @overlayStep t inp _ ih =>
      rw [OnUpdateUIOverlay_eq]
      have hw : ((widgetUpdate deviceFeatures inp t).wireframe = true →
            deviceFeatures.fillModeNonSolid = true) ∧
          ((widgetUpdate deviceFeatures inp t).tessellation = true →
            deviceFeatures.tessellationShader = true) := by
        simp only [widgetUpdate]
        split
        · constructor
          · simp only [ExampleState.wireframe]
            split
            · rename_i hcl
              intro _
              exact ((Bool.and_eq_true _ _).mp hcl).1
            · exact ih.1
          · simp only [ExampleState.tessellation]
            split
            · rename_i hcl
              intro _
              exact ((Bool.and_eq_true _ _).mp hcl).1
            · exact ih.2
        · exact ih
      cases recreateFlag deviceFeatures inp <;> simpa using hw
  | readbackStep vals _ _ ih => simpa using ih

theorem reachable_stats_names {deviceFeatures : VkPhysicalDeviceFeatures}
    {s : ExampleState} (h : Reachable deviceFeatures s) :
    s.pipelineStats.length = s.pipelineStatNames.length ∧
    (∀ info, s.queryPool = some info →
      s.pipelineStats.length = (if deviceFeatures.tessellationShader then 8 else 6) ∧
      info.queryCount = s.pipelineStats.length) := by
  induction h with
  | init => simp [initialState]
  | queryPoolStep _ _ =>
      cases ht : deviceFeatures.tessellationShader <;>
        simp [createQueryPool, vectorResize_length, ht]
  | pipelinesStep _ ih => simpa using ih
  | @overlayStep t inp _ ih =>
      have hp := overlay_preserves_stats deviceFeatures inp t
      rw [hp.1, hp.2.1, hp.2.2]
      exact ih
  | @readbackStep t vals hlen _ ih =>
      refine ⟨hlen.trans ih.1, fun info hq => ?_⟩
      obtain ⟨h1, h2⟩ := ih.2 info hq
      exact ⟨hlen.trans h1, by rw [hlen]; exact h2⟩

/-! ## Claim theorems -/

/-- C1: `createQueryPool` creates the query pool sized to the desired
pipeline-statistics counters: the six base statistics bits and
`queryCount = 6` when `deviceFeatures.tessellationShader` is false, plus
the two tessellation counters and `queryCount = 8` when it is true, with
`pipelineStats` and `pipelineStatNames` both resized to that count. -/
theorem createQueryPool_requests_counters
    (deviceFeatures : VkPhysicalDeviceFeatures) (s : ExampleState) :
    QueryPoolSizedToCounters deviceFeatures s := by
  cases ht : deviceFeatures.tessellationShader <;>
    simp [QueryPoolSizedToCounters, createQueryPool, vectorResize_length, ht]

theorem createQueryPool_requests_counters_witness :
    QueryPoolSizedToCounters
      { pipelineStatisticsQuery := true, fillModeNonSolid := false,
        tessellationShader := true } initialState :=
  createQueryPool_requests_counters _ _

/-- C6: `getEnabledFeatures` exits fatally with
`VK_ERROR_FEATURE_NOT_PRESENT` iff the GPU lacks
`pipelineStatisticsQuery`; missing `fillModeNonSolid` or
`tessellationShader` never terminates the program, those features are
just left disabled. -/
theorem getEnabledFeatures_fatal_iff (deviceFeatures : VkPhysicalDeviceFeatures) :
    FeatureCheckFatalIff deviceFeatures := by
  cases hp : deviceFeatures.pipelineStatisticsQuery <;>
    simp [FeatureCheckFatalIff, getEnabledFeatures, hp]

theorem getEnabledFeatures_fatal_iff_witness :
    FeatureCheckFatalIff
      { pipelineStatisticsQuery := false, fillModeNonSolid := true,
        tessellationShader := true } :=
  getEnabledFeatures_fatal_iff _

/-- C10: when `blending` is on, `createPipelines` enables src-alpha /
one-minus-src-alpha color blending and disables depth writes; when it is
off, blending is disabled and depth writes are enabled. -/
theorem createPipelines_blending_disables_depth_write (s : ExampleState) :
    BlendingImpliesNoDepthWrite s := by
  cases hb : s.blending <;>
    simp [BlendingImpliesNoDepthWrite, createPipelines, hb,
      pipelineColorBlendAttachmentState, VK_COLOR_COMPONENT_R_BIT,
      VK_COLOR_COMPONENT_G_BIT, VK_COLOR_COMPONENT_B_BIT, VK_COLOR_COMPONENT_A_BIT]

theorem createPipelines_blending_disables_depth_write_witness :
    BlendingImpliesNoDepthWrite { initialState with blending := true } :=
  createPipelines_blending_disables_depth_write _

/-- C5: an overlay update forces pipeline recreation iff one of the five
rasterization-state controls changed (cull mode, blending, wireframe when
`fillModeNonSolid`, tessellation when `tessellationShader`, discard);
the object-type combo and grid-size slider never trigger it. -/
theorem OnUpdateUIOverlay_recreates_iff (deviceFeatures : VkPhysicalDeviceFeatures)
    (inp : OverlayInput) (s : ExampleState) :
    RecreatePipelinesIff deviceFeatures inp s := by
  have hwp : (widgetUpdate deviceFeatures inp s).pipeline = s.pipeline := by
    simp only [widgetUpdate]
    split <;> rfl
  rw [RecreatePipelinesIff, OnUpdateUIOverlay_eq]
  cases hrf : recreateFlag deviceFeatures inp <;> simp [hwp]

theorem OnUpdateUIOverlay_recreates_iff_witness :
    RecreatePipelinesIff
      { pipelineStatisticsQuery := true, fillModeNonSolid := true,
        tessellationShader := true }
      { settingsOpen := true, statsOpen := true,
        objectChanged := true, newObjectIndex := 0,
        gridChanged := true, newGridSize := 5,
        cullChanged := false, newCullMode := 0,
        blendingClicked := true, wireframeClicked := false,
        tessellationClicked := false, discardClicked := false }
      initialState :=
  OnUpdateUIOverlay_recreates_iff _ _ _

/-- C2: in every command buffer recorded by `render`, `vkCmdBeginQuery`
on query 0 precedes the pipeline/descriptor binds and every model draw,
`vkCmdEndQuery` follows the last draw, and the UI overlay draw lies
outside the bracket. -/
theorem render_query_brackets_draw_loop (paused cameraUpdated : Bool) (s : ExampleState) :
    QueryBracketsDrawLoop paused cameraUpdated s := by
  refine ⟨[Event.vkGetQueryPoolResults 0 1 (s.pipelineStats.length * 8) 8
        VK_QUERY_RESULT_64_BIT]
      ++ (if !paused || cameraUpdated then [Event.updateUniformBuffers] else [])
      ++ [Event.vkBeginCommandBuffer, Event.vkCmdResetQueryPool 0 s.pipelineStats.length,
          Event.vkCmdBeginRenderPass, Event.vkCmdSetViewport, Event.vkCmdSetScissor],
    [Event.overlayDraw, Event.vkCmdEndRenderPass, Event.vkEndCommandBuffer,
     Event.submitFrame],
    ?_, ?_, ?_, ?_⟩
  · simp [render]
  · intro e he
    cases hcond : (!paused || cameraUpdated) <;> simp [hcond] at he <;>
      cases e <;> simp_all [Event.isDraw]
  · intro e he
    cases e <;> simp_all [Event.isDraw]
  · simp

theorem render_query_brackets_draw_loop_witness :
    QueryBracketsDrawLoop false false initialState :=
  render_query_brackets_draw_loop _ _ _

/-- C3 counterexample: in the concrete trace of `render` (initial state,
grid size 1) the begin-query command is recorded after
`vkCmdBeginRenderPass`, not before it, and the end-query command before
`vkCmdEndRenderPass`, not after it — so the claim that the query brackets
the entire render pass fails. -/
theorem render_query_not_around_render_pass :
    ¬ ((render false false { initialState with gridSize := 1 }).indexOf
          (Event.vkCmdBeginQuery 0) <
        (render false false { initialState with gridSize := 1 }).indexOf
          Event.vkCmdBeginRenderPass ∧
       (render false false { initialState with gridSize := 1 }).indexOf
          Event.vkCmdEndRenderPass <
        (render false false { initialState with gridSize := 1 }).indexOf
          (Event.vkCmdEndQuery 0)) := by
  decide

/-- C3 (amended): the begin/end query calls are placed inside the render
pass: in each frame's command buffer the unique begin/end query commands
appear strictly between `vkCmdBeginRenderPass` and `vkCmdEndRenderPass`,
bracketing the draw commands within the render pass rather than the
render pass itself. -/
theorem render_query_inside_render_pass (paused cameraUpdated : Bool) (s : ExampleState) :
    QueryInsideRenderPass paused cameraUpdated s := by
  refine ⟨[Event.vkGetQueryPoolResults 0 1 (s.pipelineStats.length * 8) 8
        VK_QUERY_RESULT_64_BIT]
      ++ (if !paused || cameraUpdated then [Event.updateUniformBuffers] else [])
      ++ [Event.vkBeginCommandBuffer, Event.vkCmdResetQueryPool 0 s.pipelineStats.length],
    [Event.vkCmdSetViewport, Event.vkCmdSetScissor],
    [Event.vkCmdBindDescriptorSets, Event.vkCmdBindPipeline, Event.vkCmdBindPipeline,
     Event.vkCmdBindDescriptorSets, Event.bindBuffers s.objectIndex]
      ++ drawCommands s.gridSize s.objectIndex,
    [Event.overlayDraw],
    [Event.vkEndCommandBuffer, Event.submitFrame],
    ?_, ?_, ?_, ?_, ?_, ?_⟩
  · simp [render]
  · intro e he
    cases hcond : (!paused || cameraUpdated) <;> simp [hcond] at he <;>
      cases e <;> simp_all [Event.isQueryOrRenderPassCmd]
  · intro e he
    cases e <;> simp_all [Event.isQueryOrRenderPassCmd]
  · intro e he
    rcases List.mem_append.mp he with h | h
    · cases e <;> simp_all [Event.isQueryOrRenderPassCmd]
    · rcases mem_drawCommands h with ⟨q, rfl⟩ | rfl <;> rfl
  · intro e he
    cases e <;> simp_all [Event.isQueryOrRenderPassCmd]
  · intro e he
    cases e <;> simp_all [Event.isQueryOrRenderPassCmd]

theorem render_query_inside_render_pass_witness :
    QueryInsideRenderPass false false initialState :=
  render_query_inside_render_pass _ _ _

theorem not_read_mem_drawCommands {gridSize objectIndex : Int}
    {fq qc ds str fl : Nat} :
    Event.vkGetQueryPoolResults fq qc ds str fl ∉ drawCommands gridSize objectIndex := by
  intro h
  rcases mem_drawCommands h with ⟨q, hq⟩ | hq <;> cases hq

theorem read_params_of_mem_render {paused cameraUpdated : Bool} {s : ExampleState}
    {fq qc ds str fl : Nat}
    (h : Event.vkGetQueryPoolResults fq qc ds str fl ∈ render paused cameraUpdated s) :
    fq = 0 ∧ qc = 1 ∧ ds = s.pipelineStats.length * 8 ∧ str = 8 ∧
      fl = VK_QUERY_RESULT_64_BIT := by
  cases hcond : (!paused || cameraUpdated) <;>
    simp [render, hcond, not_read_mem_drawCommands] at h <;> tauto

theorem render_ends_submit (paused cameraUpdated : Bool) (s : ExampleState) :
    ∃ front, render paused cameraUpdated s = front ++ [Event.submitFrame] := by
  refine ⟨[Event.vkGetQueryPoolResults 0 1 (s.pipelineStats.length * 8) 8
        VK_QUERY_RESULT_64_BIT]
      ++ (if !paused || cameraUpdated then [Event.updateUniformBuffers] else [])
      ++ [Event.vkBeginCommandBuffer, Event.vkCmdResetQueryPool 0 s.pipelineStats.length,
          Event.vkCmdBeginRenderPass, Event.vkCmdSetViewport, Event.vkCmdSetScissor,
          Event.vkCmdBeginQuery 0, Event.vkCmdBindDescriptorSets, Event.vkCmdBindPipeline,
          Event.vkCmdBindPipeline, Event.vkCmdBindDescriptorSets,
          Event.bindBuffers s.objectIndex]
      ++ drawCommands s.gridSize s.objectIndex
      ++ [Event.vkCmdEndQuery 0, Event.overlayDraw, Event.vkCmdEndRenderPass,
          Event.vkEndCommandBuffer], ?_⟩
  simp [render]

/-- C4: over any run of frames, each frame's read of the query-pool
results comes after the submission of the previous frame's command buffer
(the one whose begin/end query pair wrote query 0) and before the current
frame's own submission, and every read is of a single query (query 0)
into exactly `pipelineStats.size() * sizeof(uint64_t)` bytes of 64-bit
results with stride `sizeof(uint64_t)`. -/
theorem render_readback_after_submission (paused cameraUpdated : Bool)
    (st : Nat → ExampleState) (n k : Nat) (h : k + 1 < n) :
    ReadbackAfterSubmission paused cameraUpdated st n k := by
  obtain ⟨m, rfl⟩ : ∃ m, n = k + 1 + 1 + m := ⟨n - (k + 2), by omega⟩
  obtain ⟨frk, hfrk⟩ := render_ends_submit paused cameraUpdated (st k)
  obtain ⟨frk1, hfrk1⟩ := render_ends_submit paused cameraUpdated (st (k + 1))
  refine ⟨(List.range k).flatMap (frameEvents paused cameraUpdated st),
    ((List.range m).map (fun x => k + 1 + 1 + x)).flatMap
      (frameEvents paused cameraUpdated st),
    ?_, ⟨frk.map (fun e => (k, e)), ?_⟩, ⟨_, rfl⟩,
    ⟨frk1.map (fun e => (k + 1, e)), ?_⟩,
    List.mem_map_of_mem _ (by simp [render]),
    List.mem_map_of_mem _ (by simp [render]), ?_⟩
  · simp [runFrames, List.range_add, List.range_succ, List.flatMap_append,
      List.append_assoc]
  · rw [frameEvents, hfrk]
    simp
  · rw [frameEvents, hfrk1]
    simp
  · intro j fq qc ds str fl hmem
    simp only [runFrames, List.mem_flatMap] at hmem
    obtain ⟨j2, hj2, hm⟩ := hmem
    simp only [frameEvents, List.mem_map] at hm
    obtain ⟨e, he, heq⟩ := hm
    injection heq with h1 h2
    subst h1
    subst h2
    exact read_params_of_mem_render he

theorem render_readback_after_submission_witness :
    0 + 1 < 3 ∧ ReadbackAfterSubmission false false (fun _ => initialState) 3 0 :=
  ⟨by decide, render_readback_after_submission false false (fun _ => initialState) 3 0
    (by decide)⟩

theorem draw_objectIndex_of_mem_render {paused cameraUpdated : Bool}
    {s : ExampleState} {i : Int}
    (h : Event.draw i ∈ render paused cameraUpdated s) : i = s.objectIndex := by
  have hd : Event.draw i ∈ drawCommands s.gridSize s.objectIndex := by
    cases hcond : (!paused || cameraUpdated) <;> simp [render, hcond] at h <;> exact h
  rcases mem_drawCommands hd with ⟨q, hq⟩ | hq
  · cases hq
  · injection hq

theorem render_countP_draw (paused cameraUpdated : Bool) (s : ExampleState) :
    (render paused cameraUpdated s).countP Event.isDraw = s.gridSize.toNat ^ 2 := by
  cases hcond : (!paused || cameraUpdated) <;>
    simp [render, hcond, List.countP_append, List.countP_cons, Event.isDraw,
      drawCommands_countP_draw]

theorem sum_map_const_nat {α : Type} (l : List α) (c : Nat) :
    (l.map fun _ => c).sum = l.length * c := by
  induction l with
  | nil => simp
  | cons a l ih => simp [ih, Nat.succ_mul, Nat.add_comm]

theorem length_flatMap_list {α β : Type} (l : List α) (f : α → List β) :
    (l.flatMap f).length = (l.map fun a => (f a).length).sum := by
  induction l <;> simp [*]

theorem gridCells_length (gridSize : Int) :
    (gridCells gridSize).length = gridSize.toNat ^ 2 := by
  rw [gridCells, length_flatMap_list]
  simp [sum_map_const_nat, sq]

theorem gridCoordinate_spacing (gridSize x : Int) :
    gridCoordinate gridSize (x + 1) - gridCoordinate gridSize x = 5 / 2 := by
  simp only [gridCoordinate]
  push_cast
  ring

/-- C7 counterexample: the grid is not centered around the origin.  With
`gridSize = 1` the single cell's position is `(-1.25, 0, -1.25)`, not the
origin, and with `gridSize = 3` the midpoint of the first and last grid
coordinates is `-1.25`, not `0`. -/
theorem grid_not_centered_at_origin :
    gridCells 1 = [(-5/4, 0, -5/4)] ∧
    ((-5/4 : Rat), (0 : Rat), (-5/4 : Rat)) ≠ ((0 : Rat), (0 : Rat), (0 : Rat)) ∧
    (gridCoordinate 3 0 + gridCoordinate 3 2) / 2 = -5/4 := by
  refine ⟨?_, by norm_num [Prod.ext_iff], by norm_num [gridCoordinate]⟩
  have hr : List.range 1 = [0] := by decide
  have h1 : gridCells 1 = [objectPosition 1 0 0] := by
    simp [gridCells, hr]
  rw [h1]
  norm_num [objectPosition, gridCoordinate, Prod.ext_iff]

/-- C7 (amended): each frame renders a grid of 3D models: `render`
records exactly `gridSize * gridSize` draw commands (between 1 and 100,
since `gridSize` stays in `[1, 10]`), all of the selected model, one per
grid cell with its position passed via push constant right before the
draw; the cells are spaced 2.5 units apart, but the grid is offset half a
cell from the origin: its extent is centered at `-1.25` on both axes. -/
theorem render_draws_model_grid (paused cameraUpdated : Bool)
    (deviceFeatures : VkPhysicalDeviceFeatures) (s : ExampleState)
    (h : Reachable deviceFeatures s) :
    RendersModelGrid paused cameraUpdated deviceFeatures s := by
  obtain ⟨hg1, hg2⟩ := reachable_gridSize_bounds h
  have ht1 : 1 ≤ s.gridSize.toNat := by omega
  have ht2 : s.gridSize.toNat ≤ 10 := by omega
  refine ⟨hg1, hg2, render_countP_draw paused cameraUpdated s, ?_, ?_, ?_,
    gridPositions_eq _ _, gridCells_length _,
    fun x => gridCoordinate_spacing _ _, ?_⟩
  · calc 1 = 1 ^ 2 := by norm_num
      _ ≤ s.gridSize.toNat ^ 2 := Nat.pow_le_pow_left ht1 2
  · calc s.gridSize.toNat ^ 2 ≤ 10 ^ 2 := Nat.pow_le_pow_left ht2 2
      _ = 100 := by norm_num
  · intro e he hde
    cases e <;> simp [Event.isDraw] at hde
    exact congrArg Event.draw (draw_objectIndex_of_mem_render he)
  · simp only [gridCoordinate]
    push_cast
    ring

theorem render_draws_model_grid_witness :
    RendersModelGrid false false
      { pipelineStatisticsQuery := true, fillModeNonSolid := false,
        tessellationShader := false } initialState :=
  render_draws_model_grid false false _ initialState Reachable.init

/-- C8: from the end of `createQueryPool` onward `pipelineStats` and
`pipelineStatNames` have equal length (8 with tessellation support, else
6, equal to the pool's `queryCount`) and no later operation resizes
them, so the overlay's indexed accesses stay in bounds, the reset count
and read-back byte count match the counter count, and the statistics
section prints one caption per counter. -/
theorem stats_names_stay_in_sync (deviceFeatures : VkPhysicalDeviceFeatures)
    (s : ExampleState) (h : Reachable deviceFeatures s) :
    StatsNamesInvariant deviceFeatures s := by
  obtain ⟨h1, h2⟩ := reachable_stats_names h
  refine ⟨h1, h2, fun i hi => h1 ▸ hi, fun p c => ?_, fun p c => ?_, ?_⟩
  · rw [← h1]
    simp [render]
  · rw [← h1]
    rfl
  · simp only [overlayStatCaptions]
    split
    · rename_i he
      simp [List.isEmpty_iff.mp he]
    · simp

theorem stats_names_stay_in_sync_witness :
    StatsNamesInvariant
      { pipelineStatisticsQuery := true, fillModeNonSolid := false,
        tessellationShader := false }
      (createQueryPool
        { pipelineStatisticsQuery := true, fillModeNonSolid := false,
          tessellationShader := false } initialState) :=
  stats_names_stay_in_sync _ _ (Reachable.queryPoolStep Reachable.init)

/-- C9: in every reachable state `wireframe` is only set when the device
supports `fillModeNonSolid` and `tessellation` only when it supports
`tessellationShader`, so `createPipelines` never selects
`VK_POLYGON_MODE_LINE` nor adds tessellation stages / patch-list topology
on a device lacking the feature. -/
theorem toggles_gated_on_features (deviceFeatures : VkPhysicalDeviceFeatures)
    (s : ExampleState) (h : Reachable deviceFeatures s) :
    FeatureGatedToggles deviceFeatures s := by
  obtain ⟨hw, ht⟩ := reachable_feature_flags h
  refine ⟨hw, ht, fun hf => ?_, fun hts => ?_⟩
  · have hwf : s.wireframe = false := by
      cases hv : s.wireframe
      · rfl
      · exact absurd (hw hv) (by simp [hf])
    simp [createPipelines, hwf]
  · have htf : s.tessellation = false := by
      cases hv : s.tessellation
      · rfl
      · exact absurd (ht hv) (by simp [hts])
    refine ⟨?_, ?_, ?_⟩ <;> simp [createPipelines, htf]

theorem toggles_gated_on_features_witness :
    FeatureGatedToggles
      { pipelineStatisticsQuery := true, fillModeNonSolid := false,
        tessellationShader := false } initialState :=
  toggles_gated_on_features _ _ Reachable.init

end PipelineStatistics
